import Mathlib

/-!
Verification of the Coffee-Shop backend (`backend/src/api.py`) against its
natural-language specification.

The Flask route handlers are embedded shallowly: the relational store is a
list of `Drink` rows, an SQLAlchemy query ordered by `Drink.id` is a sort by
id, a request body (`request.get_json()`) is an optional JSON value, and
`abort(code, description)` / `jsonify(...)` become an explicit result type
`HResult`.  The auth module (`backend/src/auth/auth.py`) and the ORM model
module (`backend/src/database/models.py`) are not part of the sources; they
are modelled from the specification where needed (each such definition says
so in its doc comment).
-/

set_option linter.unusedVariables false

namespace CoffeeShop

/-- JSON values, as produced by `request.get_json()` / consumed by `jsonify`. -/
inductive Json where
  | null : Json
  | bool (b : Bool) : Json
  | num (n : Int) : Json
  | str (s : String) : Json
  | arr (elems : List Json) : Json
  | obj (fields : List (String × Json)) : Json
deriving Repr

/-- Python truthiness of a JSON value (`if not body` in the handlers):
`None`/`null`, `False`, `0`, `""`, `[]` and an empty object are falsy. -/
def Json.truthy : Json → Bool
  | .null => false
  | .bool b => b
  | .num n => n != 0
  | .str s => s ≠ ""
  | .arr es => !es.isEmpty
  | .obj fs => !fs.isEmpty

/-- Key membership in a JSON object's field list (`k in body.keys()`). -/
def containsKey (fields : List (String × Json)) (k : String) : Bool :=
  fields.any (fun p => p.1 = k)

/-- `body.get(k, None)`: Python's `json` maps JSON `null` to `None`, so a
field explicitly set to `null` is indistinguishable from an absent field. -/
def pyGet (fields : List (String × Json)) (k : String) : Option Json :=
  match fields.lookup k with
  | some .null => none
  | r => r

mutual
/-- `json.dumps` (no whitespace-control or escaping subtleties are needed by
any handler: the result is only ever stored opaquely in the recipe column). -/
def Json.dumps : Json → String
  | .null => "null"
  | .bool true => "true"
  | .bool false => "false"
  | .num n => toString n
  | .str s => "\"" ++ s ++ "\""
  | .arr es => "[" ++ dumpsList es ++ "]"
  | .obj fs => "\x7b" ++ dumpsFields fs ++ "\x7d"

def dumpsList : List Json → String
  | [] => ""
  | [j] => Json.dumps j
  | j :: rest => Json.dumps j ++ ", " ++ dumpsList rest

def dumpsFields : List (String × Json) → String
  | [] => ""
  | [(k, j)] => "\"" ++ k ++ "\": " ++ Json.dumps j
  | (k, j) :: rest => "\"" ++ k ++ "\": " ++ Json.dumps j ++ ", " ++ dumpsFields rest
end

/-- A row of the `drinks` table.  Modelled from the spec: `models.py` is not
under the sources; the spec says the resource is a single "drink" with a
title and a recipe stored as a JSON-encoded string in a text column, keyed
by an integer primary key. -/
structure Drink where
  id : Nat
  title : String
  recipe : String
deriving Repr, DecidableEq

/-- `drink.long()`.  Modelled from the spec: the detail serialization of a
drink row (id, title, recipe). -/
def Drink.long (d : Drink) : Json :=
  .obj [("id", .num d.id), ("title", .str d.title), ("recipe", .str d.recipe)]

/-- `drink.short()`.  Modelled from the spec: the abbreviated serialization
of a drink row (id, title, recipe with less detail; the exact recipe shape
carries no algorithmic content per the spec's design notes). -/
def Drink.short (d : Drink) : Json :=
  .obj [("id", .num d.id), ("title", .str d.title), ("recipe", .str d.recipe)]

/-- The relational store: the rows of the `drinks` table, in table order. -/
abbrev Store := List Drink

/-- Ascending comparison on the primary key, used by `order_by(Drink.id)`. -/
def drinkLe (a b : Drink) : Prop := a.id ≤ b.id

instance : DecidableRel drinkLe := fun a b => Nat.decLe a.id b.id

instance : IsTotal Drink drinkLe := ⟨fun a b => Nat.le_total a.id b.id⟩

instance : IsTrans Drink drinkLe := ⟨fun _ _ _ => Nat.le_trans⟩

/-- `Drink.query.order_by(Drink.id).all()`: the rows sorted ascending by id. -/
def queryOrderById (s : Store) : List Drink := List.insertionSort drinkLe s

/-- The autoincrement primary key the database assigns to an inserted row:
one more than the largest id in use. -/
def nextId (s : Store) : Nat := (s.map Drink.id).foldr max 0 + 1

/-- Outcome of one resource-handler invocation: a 200 JSON response, an
`abort(code, description)` (routed to the matching error handler), or an
uncaught Python exception (a request whose body falls outside what the
handler's dict operations and the string-typed title column accept).  Each
outcome carries the resulting store. -/
inductive HResult where
  | ok (store : Store) (respBody : Json) : HResult
  | err (store : Store) (code : Nat) (description : String) : HResult
  | crash (store : Store) : HResult
deriving Repr

/-- A decoded, validated claim set (the `payload` handed to every guarded
handler).  Modelled from the spec: a claim set carries issuer, audience,
expiry and a set of permission strings. -/
structure ClaimSet where
  iss : String
  aud : String
  exp : Nat
  permissions : List String
deriving Repr, DecidableEq

/-- `GET /drinks` (`get_all_drinks`): all drinks ordered by id, short form. -/
def get_all_drinks (s : Store) : Json :=
  .obj [("success", .bool true),
        ("drinks", .arr ((queryOrderById s).map Drink.short))]

/-- `GET /drinks-detail` (`get_drinks_detail`): all drinks ordered by id,
long form.  `payload` is the claim set injected by `requires_auth`; the
handler ignores it, as in the source. -/
def get_drinks_detail (payload : ClaimSet) (s : Store) : Json :=
  .obj [("success", .bool true),
        ("drinks", .arr ((queryOrderById s).map Drink.long))]

/-- `POST /drinks` (`create_drink`): reject a falsy body with 400, a body
missing the `"recipe"` or `"title"` key with 400, and a duplicate title with
409; otherwise insert the new row and return it in long form.  A body that
is not a JSON object (its `.keys()` call raises) or whose title is not a
string (outside the string-typed title column) is a crash. -/
def create_drink (payload : ClaimSet) (body : Option Json) (s : Store) : HResult :=
  match body with
  | none => .err s 400 "JSON passed is empty"
  | some j =>
    if ¬ j.truthy then .err s 400 "JSON passed is empty"
    else
      match j with
      | .obj fields =>
        if ¬ containsKey fields "recipe" ∨ ¬ containsKey fields "title" then
          .err s 400 "Invalid JSON, \"recipe\" or \"title\" key is not present"
        else
          match fields.lookup "title", fields.lookup "recipe" with
          | some (.str t), some recipe =>
            if (s.filter (fun d => d.title = t)) ≠ [] then
              .err s 409 ("Drink with name " ++ t ++ " already exists.")
            else
              let d : Drink := { id := nextId s, title := t, recipe := recipe.dumps }
              .ok (s ++ [d]) (.obj [("success", .bool true), ("drinks", .arr [d.long])])
          | _, _ => .crash s
      | _ => .crash s

/-- `PATCH /drinks/<id>` (`patch_drink`): reject a falsy body with 400;
look the drink up by id (404 when absent, a crash on a duplicated primary
key, which the database excludes); reject a missing/null `"title"` with
400; set the title, re-serialize the recipe only when one was supplied,
and return the updated row in long form. -/
def patch_drink (payload : ClaimSet) (body : Option Json) (drink_id : Nat) (s : Store) : HResult :=
  match body with
  | none => .err s 400 "JSON passed is empty"
  | some j =>
    if ¬ j.truthy then .err s 400 "JSON passed is empty"
    else
      match j with
      | .obj fields =>
        let title := pyGet fields "title"
        let recipe := pyGet fields "recipe"
        match s.filter (fun d => d.id = drink_id) with
        | [] => .err s 404 ("No drink found with the id \"" ++ toString drink_id ++ "\"")
        | [d] =>
          match title with
          | none => .err s 400 "JSON error, \"Title\" key is not present"
          | some (.str t) =>
            let d' : Drink :=
              { d with title := t,
                       recipe := match recipe with
                                 | some r => r.dumps
                                 | none => d.recipe }
            .ok (s.map (fun e => if e.id = drink_id then d' else e))
                (.obj [("success", .bool true), ("drinks", .arr [d'.long])])
          | some _ => .crash s
        | _ => .crash s
      | _ => .crash s

/-- `DELETE /drinks/<id>` (`delete_drinks`): look the drink up by id (404
when absent), delete it, and answer `{"success": true, "deleted": id}`. -/
def delete_drinks (payload : ClaimSet) (drink_id : Nat) (s : Store) : HResult :=
  match s.filter (fun d => d.id = drink_id) with
  | [] => .err s 404 ("No drink found with the id \"" ++ toString drink_id ++ "\"")
  | [_] =>
    .ok (s.filter (fun d => d.id ≠ drink_id))
        (.obj [("success", .bool true), ("deleted", .num drink_id)])
  | _ => .crash s

/-- A propagated Flask `HTTPException`, as raised by `abort(code, description)`
or by routing itself (in which case it has no handler-supplied description). -/
structure HttpException where
  code : Nat
  description : Option String
deriving Repr, DecidableEq

/-- The structured authorization failure (`AuthError` in `auth.py`).
Modelled from the spec: all authorization failures are subtypes of a single
error carrying an HTTP-equivalent status code and a machine code plus
human-readable description. -/
structure AuthError where
  code : String
  description : String
  status_code : Nat
deriving Repr, DecidableEq

/-- `@app.errorhandler(404)` (`not_found`). -/
def not_found (e : HttpException) : Nat × Json :=
  (404, .obj [("success", .bool false), ("error", .num 404),
              ("message", .str (e.description.getD "Resource Not Found"))])

/-- `@app.errorhandler(400)` (`bad_request`). -/
def bad_request (e : HttpException) : Nat × Json :=
  (400, .obj [("success", .bool false), ("error", .num 400),
              ("message", .str (e.description.getD "Bad Request"))])

/-- `@app.errorhandler(405)` (`method_not_allowed`). -/
def method_not_allowed (e : HttpException) : Nat × Json :=
  (405, .obj [("success", .bool false), ("error", .num 405),
              ("message", .str (e.description.getD "Method Not Allowed"))])

/-- `@app.errorhandler(409)` (`conflict`). -/
def conflict (e : HttpException) : Nat × Json :=
  (409, .obj [("success", .bool false), ("error", .num 409),
              ("message", .str (e.description.getD "Resource Already Exists"))])

/-- `@app.errorhandler(AuthError)` (`auth_error`). -/
def auth_error (e : AuthError) : Nat × Json :=
  (e.status_code, .obj [("success", .bool false), ("error", .num e.status_code),
                        ("message", .str e.description)])

/-- An error reaching the application boundary: an `HTTPException` or an
`AuthError`. -/
inductive PropagatedError where
  | http (e : HttpException) : PropagatedError
  | auth (e : AuthError) : PropagatedError
deriving Repr, DecidableEq

/-- Flask's error dispatch over the handlers registered in `api.py`: an
`HTTPException` goes to the handler registered for its status code (none is
registered for other codes), an `AuthError` to `auth_error`. -/
def boundary_error_mapper : PropagatedError → Option (Nat × Json)
  | .http e =>
    match e.code with
    | 400 => some (bad_request e)
    | 404 => some (not_found e)
    | 405 => some (method_not_allowed e)
    | 409 => some (conflict e)
    | _ => none
  | .auth e => some (auth_error e)

/-! ### The authorization guard

`backend/src/auth/auth.py` is not under the sources; the guard, decoder and
validator below are modelled from the specification (sections 4.1–4.3, 7 and
8 of the spec). -/

/-- The decoded content of a structurally well-formed credential.  Modelled
from the spec: the decoder yields an unverified claim set plus the
signing-key identifier and algorithm from the header; the signature is
abstracted as the key the token was actually signed with. -/
structure Jwt where
  kid : String
  alg : String
  sigKey : Nat
  claims : ClaimSet
deriving Repr, DecidableEq

/-- Structural decoding outcome for a credential string.  Modelled from the
spec: a malformed token (wrong part count, invalid encoding) is
distinguishable from every validation failure. -/
inductive DecodeResult where
  | malformed : DecodeResult
  | decoded (j : Jwt) : DecodeResult
deriving Repr, DecidableEq

/-- The validator's environment.  Modelled from the spec: expected issuer
and audience, the algorithm allow-list, the trusted verification key set
(keyed by key identifier), the current time, and the structural decoding
function for credential strings. -/
structure AuthEnv where
  issuer : String
  audience : String
  allowedAlgs : List String
  keys : List (String × Nat)
  now : Nat
  decode : String → DecodeResult

/-- The part of an inbound HTTP request the guard reads: the value of the
`Authorization` header, when present. -/
structure Request where
  authorization : Option String

/-- Modelled from the spec: `MissingCredentialError`, the 401-equivalent
failure for an absent Authorization header or one not in `Bearer <token>`
form (in particular the empty-string credential). -/
def missingCredentialError : AuthError :=
  { code := "missing_credential",
    description := "Authorization header is expected in the form Bearer token",
    status_code := 401 }

/-- Modelled from the spec: `DecodeError`, a structurally malformed token. -/
def decodeError : AuthError :=
  { code := "invalid_header", description := "Unable to parse authentication token",
    status_code := 401 }

/-- Modelled from the spec: `DisallowedAlgorithm`. -/
def disallowedAlgorithmError : AuthError :=
  { code := "invalid_header", description := "Token signed with a disallowed algorithm",
    status_code := 401 }

/-- Modelled from the spec: `UntrustedKey` (no trusted verification key
matches the token's key identifier). -/
def untrustedKeyError : AuthError :=
  { code := "invalid_header", description := "Unable to find the appropriate key",
    status_code := 401 }

/-- Modelled from the spec: `InvalidSignature`. -/
def invalidSignatureError : AuthError :=
  { code := "invalid_signature", description := "Signature verification failed",
    status_code := 401 }

/-- Modelled from the spec: `Expired`. -/
def expiredError : AuthError :=
  { code := "token_expired", description := "Token expired", status_code := 401 }

/-- Modelled from the spec: issuer or audience claim does not match the
expected configuration. -/
def invalidClaimsError : AuthError :=
  { code := "invalid_claims", description := "Incorrect claims, check the audience and issuer",
    status_code := 401 }

/-- Modelled from the spec: `InsufficientPermission` (403-equivalent). -/
def insufficientPermissionError : AuthError :=
  { code := "unauthorized", description := "Permission not found", status_code := 403 }

/-- Modelled from the spec (`get_token_auth_header`): extract the credential
token from the `Authorization` header; fail with `MissingCredentialError`
when the header is absent or not in `Bearer <token>` form. -/
def get_token_auth_header (r : Request) : Except AuthError String :=
  match r.authorization with
  | none => .error missingCredentialError
  | some h =>
    match h.toList.splitOn ' ' with
    | [b, t] => if b = "Bearer".toList then .ok (String.mk t) else .error missingCredentialError
    | _ => .error missingCredentialError

/-- Modelled from the spec (`verify_decode_jwt`, sections 4.1–4.2):
structurally decode the token, then check in order that the signature
matches the trusted key selected by key identifier, that the algorithm is
on the allow-list, that issuer and audience match the configuration, and
that the expiry lies strictly in the future (expiry equal to the current
time is expired). -/
def verify_decode_jwt (env : AuthEnv) (token : String) : Except AuthError ClaimSet :=
  match env.decode token with
  | .malformed => .error decodeError
  | .decoded j =>
    match env.keys.lookup j.kid with
    | none => .error untrustedKeyError
    | some k =>
      if j.sigKey ≠ k then .error invalidSignatureError
      else if j.alg ∉ env.allowedAlgs then .error disallowedAlgorithmError
      else if j.claims.iss ≠ env.issuer ∨ j.claims.aud ≠ env.audience then
        .error invalidClaimsError
      else if j.claims.exp ≤ env.now then .error expiredError
      else .ok j.claims

/-- Modelled from the spec (`check_permissions`): the required permission
string must be a member of the claim set's permission list. -/
def check_permissions (permission : String) (claims : ClaimSet) : Except AuthError Unit :=
  if permission ∈ claims.permissions then .ok ()
  else .error insufficientPermissionError

/-- Modelled from the spec (section 4.3, state machine `NoCredential →
Decoded → Validated → Authorized`): header extraction, then decode+validate,
then the permission check, stopping at the first failing step. -/
def auth_pipeline (permission : String) (env : AuthEnv) (r : Request) :
    Except AuthError ClaimSet :=
  match get_token_auth_header r with
  | .error e => .error e
  | .ok token =>
    match verify_decode_jwt env token with
    | .error e => .error e
    | .ok claims =>
      match check_permissions permission claims with
      | .error e => .error e
      | .ok _ => .ok claims

/-- Modelled from the spec (`requires_auth`, section 4.3): the guard runs
the authorization pipeline and on success invokes the wrapped operation
with the validated claim set as its first argument; any authorization
failure short-circuits past the operation. -/
def requires_auth {α : Type} (permission : String) (f : ClaimSet → α)
    (env : AuthEnv) (r : Request) : Except AuthError α :=
  Except.map f (auth_pipeline permission env r)

/-- Flask's dispatch around one guarded endpoint: a successful guarded call
renders the handler's response; a propagated `AuthError` is rendered by the
registered `auth_error` boundary handler. -/
def handle_request {α : Type} (render : α → Nat × Json)
    (guarded : Except AuthError α) : Nat × Json :=
  match guarded with
  | .ok a => render a
  | .error e => auth_error e

/-- The response shape the spec prescribes for every successful operation:
a JSON object with a boolean `"success"` field and an array `"drinks"`
field.  (Stated from the spec's words, to be compared with the bodies the
handlers actually build.) -/
def hasSuccessDrinksShape : Json → Bool
  | .obj fs =>
    (match fs.lookup "success" with | some (.bool _) => true | _ => false) &&
    (match fs.lookup "drinks" with | some (.arr _) => true | _ => false)
  | _ => false

/-- The `"id"` field of a serialized drink object. -/
def objId : Json → Int
  | .obj fs =>
    match fs.lookup "id" with
    | some (.num n) => n
    | _ => 0
  | _ => 0

/-- The ids of the `"drinks"` array of a response body, when it has one. -/
def respDrinkIds (j : Json) : Option (List Int) :=
  match j with
  | .obj fs =>
    match fs.lookup "drinks" with
    | some (.arr ds) => some (ds.map objId)
    | _ => none
  | _ => none

/-- An arbitrary concrete claim set, used to invoke handlers (which ignore
their `payload` argument) on concrete inputs. -/
def payload0 : ClaimSet := { iss := "", aud := "", exp := 0, permissions := [] }

/-- A concrete claim set carrying all four endpoint permissions, for
concrete instantiations of the guard theorems. -/
def claims0 : ClaimSet :=
  { iss := "https://issuer.example/", aud := "coffee", exp := 2000,
    permissions := ["get:drinks-detail", "post:drinks", "patch:drinks", "delete:drinks"] }

/-- A concrete well-formed token signed with key 5 under key id `"k1"`. -/
def jwt0 : Jwt := { kid := "k1", alg := "RS256", sigKey := 5, claims := claims0 }

/-- A concrete authorization environment trusting `jwt0`'s key, for concrete
instantiations of the guard theorems. -/
def env0 : AuthEnv :=
  { issuer := "https://issuer.example/", audience := "coffee",
    allowedAlgs := ["RS256"], keys := [("k1", 5)], now := 1000,
    decode := fun t => if t = "goodtoken" then .decoded jwt0 else .malformed }

/-! ## Theorems -/

/-- A successful `List.lookup` means the key is among the object's keys. -/
theorem containsKey_of_lookup_some {fs : List (String × Json)} {k : String} {v : Json}
    (h : fs.lookup k = some v) : containsKey fs k = true := by
  induction fs with
  | nil => simp at h
  | cons p rest ih =>
    rw [List.lookup_cons] at h
    by_cases hk : k = p.1
    · simp [containsKey, hk]
    · rw [show (k == p.1) = false by simpa using hk] at h
      have hc := ih h
      simp [containsKey] at hc ⊢
      tauto

/-- A key among the object's keys has a `List.lookup` value. -/
theorem lookup_some_of_containsKey {fs : List (String × Json)} {k : String}
    (h : containsKey fs k = true) : ∃ v, fs.lookup k = some v := by
  induction fs with
  | nil => simp [containsKey] at h
  | cons p rest ih =>
    by_cases hk : k = p.1
    · exact ⟨p.2, by rw [List.lookup_cons, show (k == p.1) = true by simpa using hk]⟩
    · have h' : containsKey rest k = true := by
        simp [containsKey] at h ⊢
        rcases h with h | h
        · exact absurd h (fun hh => hk hh.symm)
        · exact h
      obtain ⟨v, hv⟩ := ih h'
      exact ⟨v, by
        rw [List.lookup_cons, show (k == p.1) = false by simpa using hk]
        exact hv⟩

/-- `pyGet` success implies `List.lookup` success with the same value. -/
theorem lookup_eq_of_pyGet_some {fs : List (String × Json)} {k : String} {v : Json}
    (h : pyGet fs k = some v) : fs.lookup k = some v := by
  unfold pyGet at h
  split at h
  · exact absurd h (by simp)
  · exact h

/-- An object with a value under some key is nonempty, hence truthy. -/
theorem truthy_of_lookup_some {fs : List (String × Json)} {k : String} {v : Json}
    (h : fs.lookup k = some v) : (Json.obj fs).truthy = true := by
  cases fs with
  | nil => simp [List.lookup] at h
  | cons p rest => simp [Json.truthy]

/-- C8: for every state of the store, `GET /drinks` and `GET /drinks-detail`
return the drinks list sorted in ascending order of drink id. -/
theorem getDrinks_sorted_by_id (c : ClaimSet) (s : Store) :
    ∃ ids : List Int,
      respDrinkIds (get_all_drinks s) = some ids ∧
      respDrinkIds (get_drinks_detail c s) = some ids ∧
      ids.Pairwise (fun a b => a ≤ b) := by
  refine ⟨(queryOrderById s).map (fun d => (d.id : Int)), ?_, ?_, ?_⟩
  · have h1 : respDrinkIds (get_all_drinks s)
        = some (((queryOrderById s).map Drink.short).map objId) := rfl
    rw [h1, List.map_map]
    rfl
  · have h1 : respDrinkIds (get_drinks_detail c s)
        = some (((queryOrderById s).map Drink.long).map objId) := rfl
    rw [h1, List.map_map]
    rfl
  · have hp : (queryOrderById s).Pairwise drinkLe :=
      List.sorted_insertionSort drinkLe s
    exact hp.map (fun d => (d.id : Int)) (fun a b hab => Int.ofNat_le.mpr hab)

/-- C4: for every propagated error — an `AuthError` as well as the 400, 404,
405 and 409 resource errors — the boundary error mapper renders a JSON body
`{"success": false, "error": <int>, "message": <string>}` whose `"error"`
field equals the HTTP status of the response. -/
theorem boundary_mapper_matches_status (e : PropagatedError)
    (h : (∃ he, e = .http he ∧ (he.code = 400 ∨ he.code = 404 ∨ he.code = 405 ∨ he.code = 409)) ∨
         (∃ ae, e = .auth ae)) :
    ∃ (st : Nat) (fs : List (String × Json)) (m : String),
      boundary_error_mapper e = some (st, .obj fs) ∧
      fs.lookup "success" = some (.bool false) ∧
      fs.lookup "error" = some (.num st) ∧
      fs.lookup "message" = some (.str m) := by
  rcases h with ⟨he, rfl, hc⟩ | ⟨ae, rfl⟩
  · obtain ⟨code, desc⟩ := he
    rcases hc with hc | hc | hc | hc <;> subst hc
    · exact ⟨400, _, desc.getD "Bad Request", rfl, rfl, rfl, rfl⟩
    · exact ⟨404, _, desc.getD "Resource Not Found", rfl, rfl, rfl, rfl⟩
    · exact ⟨405, _, desc.getD "Method Not Allowed", rfl, rfl, rfl, rfl⟩
    · exact ⟨409, _, desc.getD "Resource Already Exists", rfl, rfl, rfl, rfl⟩
  · exact ⟨ae.status_code, _, ae.description, rfl, rfl, rfl, rfl⟩

/-- Witness for C4 at a concrete 404 with a description. -/
theorem boundary_mapper_matches_status_witness :
    ∃ (st : Nat) (fs : List (String × Json)) (m : String),
      boundary_error_mapper (.http ⟨404, some "No drink found with the id \"7\""⟩)
        = some (st, .obj fs) ∧
      fs.lookup "success" = some (.bool false) ∧
      fs.lookup "error" = some (.num st) ∧
      fs.lookup "message" = some (.str m) :=
  boundary_mapper_matches_status (.http ⟨404, some "No drink found with the id \"7\""⟩)
    (Or.inl ⟨_, rfl, Or.inr (Or.inl rfl)⟩)

/-- C3 fails as stated: a successful `DELETE /drinks/<id>` answers
`{"success": true, "deleted": <id>}`, which does not have the
`{"success": bool, "drinks": [...]}` shape. -/
theorem delete_response_not_drinks_shape :
    delete_drinks payload0 1 [⟨1, "water", "[]"⟩]
      = .ok [] (.obj [("success", .bool true), ("deleted", .num 1)]) ∧
    hasSuccessDrinksShape (.obj [("success", .bool true), ("deleted", .num 1)]) = false := by
  exact ⟨rfl, rfl⟩

/-- C3 (amended): every successful `GET /drinks`, `GET /drinks-detail`,
`POST /drinks` and `PATCH /drinks/<id>` returns a body of the shape
`{"success": bool, "drinks": [...]}`; a successful `DELETE /drinks/<id>`
instead returns `{"success": true, "deleted": <id>}`. -/
theorem success_response_shapes (c : ClaimSet) (body : Option Json) (i : Nat) (s : Store) :
    hasSuccessDrinksShape (get_all_drinks s) = true ∧
    hasSuccessDrinksShape (get_drinks_detail c s) = true ∧
    (∀ s' b, create_drink c body s = .ok s' b → hasSuccessDrinksShape b = true) ∧
    (∀ s' b, patch_drink c body i s = .ok s' b → hasSuccessDrinksShape b = true) ∧
    (∀ s' b, delete_drinks c i s = .ok s' b →
       b = .obj [("success", .bool true), ("deleted", .num i)]) := by
  refine ⟨rfl, rfl, ?_, ?_, ?_⟩
  · intro s' b h
    unfold create_drink at h
    repeat' split at h
    all_goals first
      | exact HResult.noConfusion h
      | (injection h with h1 h2; subst h2; rfl)
  · intro s' b h
    unfold patch_drink at h
    dsimp only at h
    repeat' split at h
    all_goals first
      | exact HResult.noConfusion h
      | (injection h with h1 h2; subst h2; rfl)
  · intro s' b h
    unfold delete_drinks at h
    repeat' split at h
    all_goals first
      | exact HResult.noConfusion h
      | (injection h with h1 h2; subst h2; rfl)

/-- Witness for C3 (amended): the shape facts at a concrete store, body and
id, including both inversion conjuncts at an actual successful call. -/
theorem success_response_shapes_witness :
    hasSuccessDrinksShape (get_all_drinks [⟨1, "water", "[]"⟩]) = true ∧
    hasSuccessDrinksShape
      (Json.obj [("success", .bool true),
                 ("drinks", .arr [(Drink.long ⟨2, "tea", "\"r\""⟩)])]) = true ∧
    (Json.obj [("success", .bool true), ("deleted", .num 1)])
      = .obj [("success", .bool true), ("deleted", .num 1)] := by
  refine ⟨(success_response_shapes payload0 none 0 [⟨1, "water", "[]"⟩]).1, ?_, ?_⟩
  · exact (success_response_shapes payload0
      (some (.obj [("title", .str "tea"), ("recipe", .str "r")])) 0 [⟨1, "water", "[]"⟩]).2.2.1
      [⟨1, "water", "[]"⟩, ⟨2, "tea", "\"r\""⟩] _ rfl
  · exact (success_response_shapes payload0 none 1 [⟨1, "water", "[]"⟩]).2.2.2.2 [] _ rfl

/-- C5: an authorized `POST /drinks` whose JSON body is empty (absent or
falsy) or is an object lacking the `"recipe"` or the `"title"` key fails
with 400, and the store is unchanged (no drink is inserted). -/
theorem create_drink_rejects_bad_body (c : ClaimSet) (body : Option Json) (s : Store)
    (h : body = none ∨ (∃ j, body = some j ∧ j.truthy = false) ∨
         (∃ fs, body = some (.obj fs) ∧
            (containsKey fs "recipe" = false ∨ containsKey fs "title" = false))) :
    ∃ d, create_drink c body s = .err s 400 d := by
  rcases h with rfl | ⟨j, rfl, hj⟩ | ⟨fs, rfl, hk⟩
  · exact ⟨"JSON passed is empty", rfl⟩
  · refine ⟨"JSON passed is empty", ?_⟩
    unfold create_drink
    dsimp only
    rw [if_pos (show ¬ j.truthy = true by simp [hj])]
  · by_cases htr : (Json.obj fs).truthy = true
    · refine ⟨"Invalid JSON, \"recipe\" or \"title\" key is not present", ?_⟩
      unfold create_drink
      dsimp only
      rw [if_neg (show ¬¬ (Json.obj fs).truthy = true by simp [htr])]
      rcases hk with hk | hk
      · rw [if_pos (Or.inl (by simp [hk]))]
      · rw [if_pos (Or.inr (by simp [hk]))]
    · refine ⟨"JSON passed is empty", ?_⟩
      unfold create_drink
      dsimp only
      rw [if_pos (show ¬ (Json.obj fs).truthy = true from htr)]

/-- Witness for C5: a `POST` body carrying only a title is rejected with a
400 and leaves the concrete store unchanged. -/
theorem create_drink_rejects_bad_body_witness :
    ∃ d, create_drink payload0 (some (.obj [("title", .str "water")]))
           [⟨1, "cocoa", "[]"⟩] = .err [⟨1, "cocoa", "[]"⟩] 400 d :=
  create_drink_rejects_bad_body payload0 (some (.obj [("title", .str "water")]))
    [⟨1, "cocoa", "[]"⟩] (Or.inr (Or.inr ⟨_, rfl, Or.inl rfl⟩))

/-- C6: an authorized `POST /drinks` whose `"title"` equals the title of a
drink already in the store fails with 409 (conflict) and leaves the store
unchanged. -/
theorem create_drink_duplicate_title (c : ClaimSet) (fs : List (String × Json))
    (s : Store) (t : String)
    (hr : containsKey fs "recipe" = true)
    (ht : fs.lookup "title" = some (.str t))
    (hdup : ∃ d, d ∈ s ∧ d.title = t) :
    create_drink c (some (.obj fs)) s
      = .err s 409 ("Drink with name " ++ t ++ " already exists.") := by
  obtain ⟨r, hrv⟩ := lookup_some_of_containsKey hr
  have htr := truthy_of_lookup_some ht
  have hct := containsKey_of_lookup_some ht
  unfold create_drink
  dsimp only
  rw [if_neg (show ¬¬ (Json.obj fs).truthy = true by simp [htr])]
  rw [if_neg (show ¬(¬ containsKey fs "recipe" = true ∨ ¬ containsKey fs "title" = true)
        by simp [hr, hct])]
  rw [ht, hrv]
  dsimp only
  have hfil : s.filter (fun d => d.title = t) ≠ [] := by
    obtain ⟨d, hd, hdt⟩ := hdup
    exact List.ne_nil_of_mem (List.mem_filter.mpr ⟨hd, by simp [hdt]⟩)
  rw [if_pos hfil]

/-- Witness for C6 at a concrete duplicate title. -/
theorem create_drink_duplicate_title_witness :
    create_drink payload0
      (some (.obj [("title", .str "cocoa"), ("recipe", .arr [])]))
      [⟨1, "cocoa", "[]"⟩]
      = .err [⟨1, "cocoa", "[]"⟩] 409 "Drink with name cocoa already exists." :=
  create_drink_duplicate_title payload0 [("title", .str "cocoa"), ("recipe", .arr [])]
    [⟨1, "cocoa", "[]"⟩] "cocoa" rfl rfl ⟨⟨1, "cocoa", "[]"⟩, by simp, rfl⟩

/-- C7 fails as stated: a `PATCH /drinks/1` with an empty JSON object body
against a store with no drink 1 is rejected with 400 (empty body), not with
404. -/
theorem patch_missing_drink_empty_body_400 :
    patch_drink payload0 (some (.obj [])) 1 [] = .err [] 400 "JSON passed is empty" ∧
    ∀ d, patch_drink payload0 (some (.obj [])) 1 [] ≠ .err [] 404 d := by
  refine ⟨rfl, ?_⟩
  intro d h
  rw [show patch_drink payload0 (some (.obj [])) 1 []
        = .err [] 400 "JSON passed is empty" from rfl] at h
  injection h with hs hc hd
  exact absurd hc (by decide)

/-- C7 (amended): an authorized `PATCH /drinks/<id>` whose body is a
non-empty JSON object, or any authorized `DELETE /drinks/<id>`, against an
id with no drink in the store fails with 404 and leaves the store
unchanged. -/
theorem patch_delete_missing_drink_404 (c : ClaimSet) (i : Nat) (s : Store)
    (habs : s.filter (fun d => d.id = i) = []) :
    (∀ fs : List (String × Json), fs ≠ [] →
        patch_drink c (some (.obj fs)) i s
          = .err s 404 ("No drink found with the id \"" ++ toString i ++ "\"")) ∧
    delete_drinks c i s
      = .err s 404 ("No drink found with the id \"" ++ toString i ++ "\"") := by
  constructor
  · intro fs hfs
    unfold patch_drink
    dsimp only
    rw [if_neg (show ¬¬ (Json.obj fs).truthy = true by simp [Json.truthy, hfs])]
    rw [habs]
  · unfold delete_drinks
    rw [habs]

/-- Witness for C7 (amended) at a concrete store and id. -/
theorem patch_delete_missing_drink_404_witness :
    patch_drink payload0 (some (.obj [("title", .str "t")])) 7 [⟨1, "cocoa", "[]"⟩]
      = .err [⟨1, "cocoa", "[]"⟩] 404 "No drink found with the id \"7\"" ∧
    delete_drinks payload0 7 [⟨1, "cocoa", "[]"⟩]
      = .err [⟨1, "cocoa", "[]"⟩] 404 "No drink found with the id \"7\"" :=
  ⟨(patch_delete_missing_drink_404 payload0 7 [⟨1, "cocoa", "[]"⟩] rfl).1
      [("title", .str "t")] (by simp),
   (patch_delete_missing_drink_404 payload0 7 [⟨1, "cocoa", "[]"⟩] rfl).2⟩

/-- C9: an authorized `PATCH /drinks/<id>` whose body carries a string
`"title"` and no `"recipe"` key, against the (unique) drink with that id,
updates that drink's title, keeps its recipe and id, and leaves every other
drink unchanged. -/
theorem patch_updates_title_only (c : ClaimSet) (fs : List (String × Json)) (i : Nat)
    (s : Store) (t : String) (d : Drink)
    (ht : pyGet fs "title" = some (.str t))
    (hr : fs.lookup "recipe" = none)
    (hd : s.filter (fun e => e.id = i) = [d]) :
    ∃ rb, patch_drink c (some (.obj fs)) i s
      = .ok (s.map (fun e =>
          if e.id = i then { id := e.id, title := t, recipe := e.recipe } else e)) rb := by
  have hlt := lookup_eq_of_pyGet_some ht
  have htr := truthy_of_lookup_some hlt
  have hrn : pyGet fs "recipe" = none := by unfold pyGet; rw [hr]
  refine ⟨.obj [("success", .bool true),
                ("drinks", .arr [Drink.long { id := d.id, title := t, recipe := d.recipe }])], ?_⟩
  unfold patch_drink
  dsimp only
  rw [if_neg (show ¬¬ (Json.obj fs).truthy = true by simp [htr])]
  rw [hd, ht, hrn]
  dsimp only
  congr 1
  apply List.map_congr_left
  intro e he
  by_cases hei : e.id = i
  · have hmem : e ∈ s.filter (fun x => x.id = i) := List.mem_filter.mpr ⟨he, by simp [hei]⟩
    rw [hd] at hmem
    simp at hmem
    subst hmem
    simp [hei]
  · simp [hei]

/-- Witness for C9 at a concrete two-drink store. -/
theorem patch_updates_title_only_witness :
    ∃ rb, patch_drink payload0 (some (.obj [("title", .str "latte")])) 2
            [⟨1, "cocoa", "[]"⟩, ⟨2, "tea", "rec"⟩]
      = .ok ([⟨1, "cocoa", "[]"⟩, ⟨2, "tea", "rec"⟩].map (fun e =>
          if e.id = 2 then { id := e.id, title := "latte", recipe := e.recipe } else e)) rb :=
  patch_updates_title_only payload0 [("title", .str "latte")] 2
    [⟨1, "cocoa", "[]"⟩, ⟨2, "tea", "rec"⟩] "latte" ⟨2, "tea", "rec"⟩ rfl rfl rfl

/-- C10: in `PATCH /drinks/<id>`, the existence check precedes the `"title"`
validation: with a truthy object body lacking `"title"`, a nonexistent id
yields 404 (not 400); the `"Title" key is not present` 400 is produced only
when the drink exists; an entirely empty body yields 400 regardless of the
id. -/
theorem patch_404_before_title_400 (c : ClaimSet) (i : Nat) (s : Store) :
    (∀ fs : List (String × Json), fs ≠ [] → pyGet fs "title" = none →
        s.filter (fun d => d.id = i) = [] →
        patch_drink c (some (.obj fs)) i s
          = .err s 404 ("No drink found with the id \"" ++ toString i ++ "\"")) ∧
    (∀ (fs : List (String × Json)) (d : Drink), fs ≠ [] → pyGet fs "title" = none →
        s.filter (fun e => e.id = i) = [d] →
        patch_drink c (some (.obj fs)) i s
          = .err s 400 "JSON error, \"Title\" key is not present") ∧
    (∀ body : Option Json,
        (body = none ∨ ∃ j, body = some j ∧ j.truthy = false) →
        patch_drink c body i s = .err s 400 "JSON passed is empty") := by
  refine ⟨?_, ?_, ?_⟩
  · intro fs hfs ht habs
    unfold patch_drink
    dsimp only
    rw [if_neg (show ¬¬ (Json.obj fs).truthy = true by simp [Json.truthy, hfs])]
    rw [habs]
  · intro fs d hfs ht hone
    unfold patch_drink
    dsimp only
    rw [if_neg (show ¬¬ (Json.obj fs).truthy = true by simp [Json.truthy, hfs])]
    rw [hone, ht]
  · intro body hb
    rcases hb with rfl | ⟨j, rfl, hj⟩
    · rfl
    · unfold patch_drink
      dsimp only
      rw [if_pos (show ¬ j.truthy = true by simp [hj])]

/-- Witness for C10: the three branch facts at concrete stores and bodies. -/
theorem patch_404_before_title_400_witness :
    patch_drink payload0 (some (.obj [("recipe", .arr [])])) 7 [⟨1, "cocoa", "[]"⟩]
      = .err [⟨1, "cocoa", "[]"⟩] 404 "No drink found with the id \"7\"" ∧
    patch_drink payload0 (some (.obj [("recipe", .arr [])])) 1 [⟨1, "cocoa", "[]"⟩]
      = .err [⟨1, "cocoa", "[]"⟩] 400 "JSON error, \"Title\" key is not present" ∧
    patch_drink payload0 (some (.obj [])) 7 [⟨1, "cocoa", "[]"⟩]
      = .err [⟨1, "cocoa", "[]"⟩] 400 "JSON passed is empty" :=
  ⟨(patch_404_before_title_400 payload0 7 [⟨1, "cocoa", "[]"⟩]).1
      [("recipe", .arr [])] (by simp) rfl rfl,
   (patch_404_before_title_400 payload0 1 [⟨1, "cocoa", "[]"⟩]).2.1
      [("recipe", .arr [])] ⟨1, "cocoa", "[]"⟩ (by simp) rfl rfl,
   (patch_404_before_title_400 payload0 7 [⟨1, "cocoa", "[]"⟩]).2.2
      (some (.obj [])) (Or.inr ⟨_, rfl, rfl⟩)⟩

/-- C1: whenever the guard fails, the wrapped handler is never invoked (the
outcome is identical for every handler, of any result type), the resulting
`AuthError` is rendered by the boundary (`auth_error`) handler rather than
swallowed, and a missing `Authorization` header or an empty-string
credential yields the 401-equivalent `MissingCredentialError`. -/
theorem guard_failure_short_circuits {α β : Type} (p : String) (env : AuthEnv)
    (r : Request) (f : ClaimSet → α) (e : AuthError)
    (h : requires_auth p f env r = .error e) :
    (∀ g : ClaimSet → β, requires_auth p g env r = .error e) ∧
    (∀ render : α → Nat × Json,
        handle_request render (requires_auth p f env r) = auth_error e) ∧
    boundary_error_mapper (.auth e) = some (auth_error e) ∧
    ((r.authorization = none ∨ r.authorization = some "") →
        e = missingCredentialError ∧ e.status_code = 401) := by
  have key : ∀ (γ : Type) (g : ClaimSet → γ), requires_auth p g env r = .error e := by
    intro γ g
    unfold requires_auth at h ⊢
    generalize hp : auth_pipeline p env r = res at h ⊢
    cases res with
    | error a =>
      have hae : a = e := by injection h
      subst hae
      rfl
    | ok claims => exact Except.noConfusion h
  refine ⟨key β, ?_, rfl, ?_⟩
  · intro render
    unfold handle_request
    rw [h]
  · intro hcase
    have htok : get_token_auth_header r = .error missingCredentialError := by
      rcases hcase with hnone | hempty
      · unfold get_token_auth_header
        rw [hnone]
      · unfold get_token_auth_header
        rw [hempty]
        rfl
    unfold requires_auth auth_pipeline at h
    rw [htok] at h
    have he : missingCredentialError = e := by injection h
    subst he
    exact ⟨rfl, rfl⟩

/-- Witness for C1: with no `Authorization` header, every handler is
bypassed with `MissingCredentialError` and the boundary renders it. -/
theorem guard_failure_short_circuits_witness :
    (∀ g : ClaimSet → Json, requires_auth "get:drinks-detail" g env0 ⟨none⟩
        = .error missingCredentialError) ∧
    (∀ render : Nat × Json → Nat × Json,
        handle_request render
          (requires_auth "get:drinks-detail" (fun _ => ((200 : Nat), Json.null)) env0 ⟨none⟩)
          = auth_error missingCredentialError) ∧
    boundary_error_mapper (.auth missingCredentialError)
      = some (auth_error missingCredentialError) ∧
    (((⟨none⟩ : Request).authorization = none ∨
        (⟨none⟩ : Request).authorization = some "") →
        missingCredentialError = missingCredentialError ∧
        missingCredentialError.status_code = 401) :=
  guard_failure_short_circuits "get:drinks-detail" env0 ⟨none⟩
    (fun _ => ((200 : Nat), Json.null)) missingCredentialError rfl

/-- C2: for every request whose credential is well-formed (`Bearer` header
extraction and structural decoding succeed), has a valid signature under the
trusted key selected by its key id, an allow-listed algorithm, the expected
issuer and audience, an unexpired expiry, and a permission set containing
the endpoint's required permission, the guard invokes the wrapped handler
exactly once, with the decoded claim set passed as the handler's first
argument — for each of the four guarded endpoints. -/
theorem guard_success_invokes_handler (env : AuthEnv) (r : Request) (t : String)
    (j : Jwt) (s : Store) (body : Option Json) (i : Nat)
    (h1 : get_token_auth_header r = .ok t)
    (h2 : env.decode t = .decoded j)
    (h3 : env.keys.lookup j.kid = some j.sigKey)
    (h4 : j.alg ∈ env.allowedAlgs)
    (h5 : j.claims.iss = env.issuer)
    (h6 : j.claims.aud = env.audience)
    (h7 : env.now < j.claims.exp) :
    ("get:drinks-detail" ∈ j.claims.permissions →
        requires_auth "get:drinks-detail" (fun payload => get_drinks_detail payload s) env r
          = .ok (get_drinks_detail j.claims s)) ∧
    ("post:drinks" ∈ j.claims.permissions →
        requires_auth "post:drinks" (fun payload => create_drink payload body s) env r
          = .ok (create_drink j.claims body s)) ∧
    ("patch:drinks" ∈ j.claims.permissions →
        requires_auth "patch:drinks" (fun payload => patch_drink payload body i s) env r
          = .ok (patch_drink j.claims body i s)) ∧
    ("delete:drinks" ∈ j.claims.permissions →
        requires_auth "delete:drinks" (fun payload => delete_drinks payload i s) env r
          = .ok (delete_drinks j.claims i s)) := by
  have hv : verify_decode_jwt env t = .ok j.claims := by
    unfold verify_decode_jwt
    rw [h2]
    dsimp only
    rw [h3]
    dsimp only
    rw [if_neg (show ¬ j.sigKey ≠ j.sigKey by simp)]
    rw [if_neg (show ¬ j.alg ∉ env.allowedAlgs by simp [h4])]
    rw [if_neg (show ¬ (j.claims.iss ≠ env.issuer ∨ j.claims.aud ≠ env.audience)
          by simp [h5, h6])]
    rw [if_neg (Nat.not_le.mpr h7)]
  have key : ∀ (γ : Type) (g : ClaimSet → γ) (p : String),
      p ∈ j.claims.permissions → requires_auth p g env r = .ok (g j.claims) := by
    intro γ g p hp
    have hpl : auth_pipeline p env r = .ok j.claims := by
      unfold auth_pipeline
      rw [h1]
      dsimp only
      rw [hv]
      dsimp only
      unfold check_permissions
      rw [if_pos hp]
    unfold requires_auth
    rw [hpl]
    rfl
  exact ⟨key _ _ "get:drinks-detail", key _ _ "post:drinks",
         key _ _ "patch:drinks", key _ _ "delete:drinks"⟩

/-- Witness for C2: a fully valid concrete credential reaches each of the
four handlers with the decoded claim set. -/
theorem guard_success_invokes_handler_witness :
    ("get:drinks-detail" ∈ claims0.permissions →
        requires_auth "get:drinks-detail"
            (fun payload => get_drinks_detail payload [⟨1, "cocoa", "[]"⟩])
            env0 ⟨some "Bearer goodtoken"⟩
          = .ok (get_drinks_detail claims0 [⟨1, "cocoa", "[]"⟩])) ∧
    ("post:drinks" ∈ claims0.permissions →
        requires_auth "post:drinks"
            (fun payload => create_drink payload none [⟨1, "cocoa", "[]"⟩])
            env0 ⟨some "Bearer goodtoken"⟩
          = .ok (create_drink claims0 none [⟨1, "cocoa", "[]"⟩])) ∧
    ("patch:drinks" ∈ claims0.permissions →
        requires_auth "patch:drinks"
            (fun payload => patch_drink payload none 1 [⟨1, "cocoa", "[]"⟩])
            env0 ⟨some "Bearer goodtoken"⟩
          = .ok (patch_drink claims0 none 1 [⟨1, "cocoa", "[]"⟩])) ∧
    ("delete:drinks" ∈ claims0.permissions →
        requires_auth "delete:drinks"
            (fun payload => delete_drinks payload 1 [⟨1, "cocoa", "[]"⟩])
            env0 ⟨some "Bearer goodtoken"⟩
          = .ok (delete_drinks claims0 1 [⟨1, "cocoa", "[]"⟩])) :=
  guard_success_invokes_handler env0 ⟨some "Bearer goodtoken"⟩ "goodtoken" jwt0
    [⟨1, "cocoa", "[]"⟩] none 1
    rfl rfl rfl (by simp [env0, jwt0]) rfl rfl (by decide)

end CoffeeShop
